import Mathlib

/-
  Verification development for the KareList nutrition scoring engine
  (shopsmart-app backend, NutritionScoringService and its additive
  reference data).

  Strings from the source are embedded as lists of characters; numbers
  as rationals (JS floating point is idealised as exact rational
  arithmetic); absent optional fields as Option.none.  JS truthiness
  checks on optional numeric fields (if (nutrition.calories)) are
  embedded faithfully: a present value of 0 takes the else branch.
-/

namespace KareList

/-- Characters of a JS string. -/
abbrev Str := List Char

/-- One row of the additive reference table (prisma model Additive,
    populated from additivesSeedData).  eNumber is nullable. -/
structure AdditiveDef where
  eNumber : Option Str
  name : Str
  riskLevel : Str
  description : Str
  pointDeduction : Int
deriving DecidableEq, Repr

/-- The NutritionData interface (shared/types), restricted to the fields
    the scoring service reads.  The callers additionally attach an
    ingredients array (string list) to the object they pass in. -/
structure NutritionData where
  servingSize : Option Str
  calories : Option ℚ
  saturatedFat : Option ℚ
  sugars : Option ℚ
  sodium : Option ℚ
  dietaryFiber : Option ℚ
  protein : Option ℚ
  ingredients : Option (List Str)
deriving DecidableEq, Repr

/-- ScoreCategory union type. -/
inductive ScoreCategory where
  | excellent
  | good
  | fair
  | poor
deriving DecidableEq, Repr

/-- ScoreColor union type. -/
inductive ScoreColor where
  | green
  | lightGreen
  | orange
  | red
deriving DecidableEq, Repr

/-- AdditiveInfo interface: one detected additive as returned to users. -/
structure AdditiveInfo where
  code : Str
  name : Str
  riskLevel : Str
  description : Str
  pointDeduction : Int
deriving DecidableEq, Repr

/-- The breakdown record inside NutritionScoring. -/
structure ScoreBreakdown where
  nutritionalQuality : ℚ
  additivesImpact : ℚ
  organicBonus : ℚ
deriving DecidableEq, Repr

/-- NutritionScoring interface: the scoring result. -/
structure NutritionScoring where
  finalScore : Int
  category : ScoreCategory
  color : ScoreColor
  breakdown : ScoreBreakdown
  additives : List AdditiveInfo
  improvements : List Str
deriving DecidableEq, Repr

/-- SCORING_WEIGHTS.NUTRITIONAL_QUALITY = 0.6 -/
def WEIGHT_NUTRITIONAL_QUALITY : ℚ := 6 / 10

/-- SCORING_WEIGHTS.ADDITIVES_IMPACT = 0.3 -/
def WEIGHT_ADDITIVES_IMPACT : ℚ := 3 / 10

/-- SCORING_WEIGHTS.ORGANIC_BONUS = 0.1 -/
def WEIGHT_ORGANIC_BONUS : ℚ := 1 / 10

/-- SCORE_THRESHOLDS for category assignment. -/
def THRESHOLD_EXCELLENT : Int := 80

def THRESHOLD_GOOD : Int := 60

def THRESHOLD_FAIR : Int := 40

/-- JS Math.round: round half toward positive infinity. -/
def jsRound (q : ℚ) : Int := ⌊q + 1 / 2⌋

/-- A whitespace character as matched by the regex class backslash-s
    (restricted to the common ASCII whitespace). -/
def isWsChar (c : Char) : Bool :=
  c = ' ' || c = '\t' || c = '\n' || c = '\r'

/-- Decimal value of a digit run, as computed by parseInt. -/
def digitsToNat (ds : Str) : Nat :=
  ds.foldl (fun acc c => acc * 10 + (c.toNat - '0'.toNat)) 0

/-- The first match of the regex (backslash-d+) backslash-s* g with flag i,
    scanning left to right, digits taken greedily; returns the parsed
    gram count of the first successful match position. -/
def findGramMatch : Str → Option Nat
  | [] => none
  | c :: rest =>
    if c.isDigit then
      let run := (c :: rest).takeWhile Char.isDigit
      let after := (c :: rest).dropWhile Char.isDigit
      let afterWs := after.dropWhile isWsChar
      match afterWs with
      | 'g' :: _ => some (digitsToNat run)
      | 'G' :: _ => some (digitsToNat run)
      | _ => findGramMatch rest
    else findGramMatch rest

/-- normalizeToPerPor100g from the source: an absent or empty serving
    size string is falsy and returns the value unchanged; a parseable
    gram quantity scales by 100/grams; otherwise a 30 g serving is
    assumed. -/
def normalizeToPerPor100g (value : ℚ) (servingSize : Option Str) : ℚ :=
  match servingSize with
  | none => value
  | some s =>
    if s = [] then value
    else
      match findGramMatch s with
      | some grams => value / grams * 100
      | none => value / 30 * 100

/-- Calories penalty bands (points subtracted). -/
def caloriesPenalty (x : ℚ) : ℚ :=
  if x > 335 then 10 else if x > 270 then 8 else if x > 225 then 6
  else if x > 180 then 4 else if x > 135 then 2 else 0

/-- Saturated fat penalty bands. -/
def satFatPenalty (x : ℚ) : ℚ :=
  if x > 10 then 10 else if x > 8 then 8 else if x > 6 then 6
  else if x > 4 then 4 else if x > 2 then 2 else 0

/-- Sugars penalty bands. -/
def sugarsPenalty (x : ℚ) : ℚ :=
  if x > 45 then 10 else if x > 36 then 8 else if x > 27 then 6
  else if x > 18 then 4 else if x > 9 then 2 else 0

/-- Sodium penalty bands. -/
def sodiumPenalty (x : ℚ) : ℚ :=
  if x > 900 then 10 else if x > 720 then 8 else if x > 540 then 6
  else if x > 360 then 4 else if x > 180 then 2 else 0

/-- Dietary fiber bonus bands (points added). -/
def fiberBonus (x : ℚ) : ℚ :=
  if x > 47 / 10 then 5 else if x > 37 / 10 then 4 else if x > 28 / 10 then 3
  else if x > 19 / 10 then 2 else if x > 9 / 10 then 1 else 0

/-- Protein bonus bands. -/
def proteinBonus (x : ℚ) : ℚ :=
  if x > 8 then 5 else if x > 32 / 5 then 4 else if x > 24 / 5 then 3
  else if x > 16 / 5 then 2 else if x > 8 / 5 then 1 else 0

/-- JS truthiness of an optional numeric field: present and nonzero. -/
def numPresent (v : Option ℚ) : Bool :=
  match v with
  | none => false
  | some x => x != 0

/-- The contribution of one nutrient in calculateNutritionalQuality:
    guarded by JS truthiness, then the banded table applied to the
    normalized value. -/
def truthyContrib (v : Option ℚ) (ss : Option Str) (f : ℚ → ℚ) : ℚ :=
  if numPresent v then f (normalizeToPerPor100g (v.getD 0) ss) else 0

/-- calculateNutritionalQuality: start at 100, subtract the four
    penalties, add the two bonuses, clamp to [0, 100]. -/
def calculateNutritionalQuality (n : NutritionData) : ℚ :=
  max 0 (min 100
    (100
      - truthyContrib n.calories n.servingSize caloriesPenalty
      - truthyContrib n.saturatedFat n.servingSize satFatPenalty
      - truthyContrib n.sugars n.servingSize sugarsPenalty
      - truthyContrib n.sodium n.servingSize sodiumPenalty
      + truthyContrib n.dietaryFiber n.servingSize fiberBonus
      + truthyContrib n.protein n.servingSize proteinBonus))

/-- ASCII upper-casing of a JS string (all table codes are ASCII). -/
def toUpperCL (s : Str) : Str := s.map Char.toUpper

/-- ASCII lower-casing of a JS string. -/
def toLowerCL (s : Str) : Str := s.map Char.toLower

/-- Whether hay starts with needle. -/
def charsStartWith : Str → Str → Bool
  | _, [] => true
  | [], _ :: _ => false
  | a :: as, b :: bs => a = b && charsStartWith as bs

/-- Whether hay contains needle as a contiguous substring
    (JS String.includes / the prisma contains filter, on already
    case-normalized text). -/
def charsContain : Str → Str → Bool
  | [], needle => needle.isEmpty
  | h :: t, needle => charsStartWith (h :: t) needle || charsContain t needle

/-- An ASCII letter: the character class [a-z] under the regex flag i. -/
def isAsciiLetter (c : Char) : Bool :=
  ('a' ≤ c && c ≤ 'z') || ('A' ≤ c && c ≤ 'Z')

/-- One attempted match of the regex E(backslash-d){3}[a-z]? (flag i) at
    the position of the character c, the optional trailing letter taken
    greedily; on success returns the matched token and the remainder of
    the text after it. -/
def tryENumTail (c : Char) (rest : Str) : Option (Str × Str) :=
  if c = 'E' || c = 'e' then
    match rest with
    | d1 :: d2 :: d3 :: l :: rest3 =>
      if d1.isDigit && d2.isDigit && d3.isDigit then
        if isAsciiLetter l then some ([c, d1, d2, d3, l], rest3)
        else some ([c, d1, d2, d3], l :: rest3)
      else none
    | [d1, d2, d3] =>
      if d1.isDigit && d2.isDigit && d3.isDigit then some ([c, d1, d2, d3], [])
      else none
    | _ => none
  else none

lemma tryENumTail_some_length {c : Char} {rest tok rem : Str}
    (h : tryENumTail c rest = some (tok, rem)) : rem.length ≤ rest.length := by
  unfold tryENumTail at h
  repeat' split at h
  all_goals
    first
      | exact Option.noConfusion h
      | (rw [Option.some.injEq, Prod.mk.injEq] at h
         obtain ⟨h1, h2⟩ := h
         subst h2
         simp [List.length_cons])
  all_goals omega

/-- Scanner loop for the regex E(backslash-d){3}[a-z]? with flags g and
    i: on a successful match the scan resumes after the matched token
    (non-overlapping), on failure it advances one character.  The fuel
    argument only serves to make the recursion structural; every step
    consumes at least one character, so fuel initialised to the text
    length never runs out (eNumberMatchesGo_fuel_irrel below). -/
def eNumberMatchesGo : Nat → Str → List Str
  | _, [] => []
  | 0, _ :: _ => []
  | fuel + 1, c :: rest =>
    match tryENumTail c rest with
    | some (tok, remainder) => tok :: eNumberMatchesGo fuel remainder
    | none => eNumberMatchesGo fuel rest

/-- All matches of the regex E(backslash-d){3}[a-z]? with flags g and i.
    Mirrors ingredientsText.match(eNumberPattern). -/
def eNumberMatches (s : Str) : List Str := eNumberMatchesGo s.length s

lemma eNumberMatchesGo_fuel_irrel :
    ∀ (fuel fuel' : Nat) (s : Str), s.length ≤ fuel → s.length ≤ fuel' →
      eNumberMatchesGo fuel s = eNumberMatchesGo fuel' s := by
  intro fuel
  induction fuel with
  | zero =>
    intro fuel' s h h'
    cases s with
    | nil => cases fuel' <;> rfl
    | cons c rest => simp at h
  | succ f ih =>
    intro fuel' s h h'
    cases s with
    | nil => cases fuel' <;> rfl
    | cons c rest =>
      cases fuel' with
      | zero => simp at h'
      | succ f' =>
        simp only [List.length_cons, Nat.succ_le_succ_iff] at h h'
        show eNumberMatchesGo (f + 1) (c :: rest) = eNumberMatchesGo (f' + 1) (c :: rest)
        cases ht : tryENumTail c rest with
        | some pr =>
          obtain ⟨tok, rem⟩ := pr
          have hrem := tryENumTail_some_length ht
          simp only [eNumberMatchesGo, ht]
          exact congrArg _ (ih f' rem (le_trans hrem h) (le_trans hrem h'))
        | none =>
          simp only [eNumberMatchesGo, ht]
          exact ih f' rest h h'

/-- prisma.additive.findFirst({where: {eNumber: code}}): first table row
    whose eNumber equals the code, by case-sensitive string equality
    (the prisma default; the query passes no insensitive mode). -/
def findFirstByENumber (table : List AdditiveDef) (code : Str) : Option AdditiveDef :=
  table.find? (fun a => a.eNumber = some code)

/-- prisma.additive.findFirst({where: {name: {contains: text,
    mode: insensitive}}}): first table row whose name contains the text,
    case-insensitively. -/
def findFirstByNameContains (table : List AdditiveDef) (txt : Str) : Option AdditiveDef :=
  table.find? (fun a => charsContain (toLowerCL a.name) (toLowerCL txt))

/-- The record pushed onto extractedAdditives for a resolved table row. -/
structure ExtractedAdditive where
  eNumber : Option Str
  name : Str
  riskLevel : Str
  description : Str
  pointDeduction : Int
deriving DecidableEq, Repr

/-- Projection of a table row to the extracted-additive record. -/
def defToExtracted (a : AdditiveDef) : ExtractedAdditive :=
  ⟨a.eNumber, a.name, a.riskLevel, a.description, a.pointDeduction⟩

/-- Array.prototype.join(", ") on the ingredients array. -/
def joinComma : List Str → Str
  | [] => []
  | [s] => s
  | s :: rest => s ++ [',', ' '] ++ joinComma rest

/-- The body of the E-number loop in extractAdditives: look the
    upper-cased token up and push the row when found (no duplicate
    check in this pass). -/
def patternStep (table : List AdditiveDef) (acc : List ExtractedAdditive)
    (tok : Str) : List ExtractedAdditive :=
  match findFirstByENumber table (toUpperCL tok) with
  | some a => acc ++ [defToExtracted a]
  | none => acc

/-- The curated list of common additive names searched by the name pass. -/
def commonAdditives : List Str :=
  [("sodium benzoate").toList, ("potassium sorbate").toList,
   ("citric acid").toList, ("ascorbic acid").toList,
   ("tocopherols").toList, ("lecithin").toList, ("carrageenan").toList,
   ("xanthan gum").toList, ("guar gum").toList,
   ("sodium nitrite").toList, ("sodium nitrate").toList,
   ("monosodium glutamate").toList, ("msg").toList,
   ("high fructose corn syrup").toList, ("artificial flavor").toList,
   ("artificial color").toList, ("red 40").toList, ("yellow 5").toList,
   ("blue 1").toList, ("caramel color").toList]

/-- The body of the common-additive-name loop: case-insensitive substring
    test on the ingredient text, name-contains lookup in the table, and a
    duplicate check against everything collected so far (by resolved
    display name). -/
def nameStep (table : List AdditiveDef) (text : Str)
    (acc : List ExtractedAdditive) (nm : Str) : List ExtractedAdditive :=
  if charsContain (toLowerCL text) (toLowerCL nm) then
    match findFirstByNameContains table nm with
    | some a =>
      if acc.any (fun x => x.name = a.name) then acc
      else acc ++ [defToExtracted a]
    | none => acc
  else acc

/-- extractAdditives: join the ingredient array to one text, run the
    E-number pattern pass, then the curated-name pass. -/
def extractAdditives (table : List AdditiveDef) (ingredients : List Str) :
    List ExtractedAdditive :=
  let text := joinComma ingredients
  let afterPattern := (eNumberMatches text).foldl (patternStep table) []
  commonAdditives.foldl (nameStep table text) afterPattern

/-- Reference form of the pattern-pass output, written from the amended
    claim: each E-number match of the text, in order of appearance,
    resolved through the upper-cased identifier lookup and kept whenever
    the lookup succeeds, without any de-duplication. -/
def patternPassRef (table : List AdditiveDef) (text : Str) : List ExtractedAdditive :=
  (eNumberMatches text).filterMap
    (fun tok => (findFirstByENumber table (toUpperCL tok)).map defToExtracted)

/-- Reference form of the name-pass additions, written from the amended
    claim: the curated names are processed in list-definition order; a
    name whose lower-cased form occurs in the lower-cased text and which
    the table resolves is appended, unless some entry already collected
    (the acc argument, initially the pattern-pass output, extended with
    each earlier addition) has the same resolved display name. -/
def namePassRef (table : List AdditiveDef) (text : Str) :
    List Str → List ExtractedAdditive → List ExtractedAdditive
  | [], _ => []
  | nm :: rest, acc =>
    if charsContain (toLowerCL text) (toLowerCL nm) then
      match findFirstByNameContains table nm with
      | some a =>
        if acc.any (fun x => x.name = a.name) then namePassRef table text rest acc
        else defToExtracted a :: namePassRef table text rest (acc ++ [defToExtracted a])
      | none => namePassRef table text rest acc
    else namePassRef table text rest acc

/-- The additive.eNumber or additive.name fallback and field copy that
    builds the user-facing AdditiveInfo record. -/
def extractedToInfo (a : ExtractedAdditive) : AdditiveInfo :=
  { code := a.eNumber.getD a.name
    name := a.name
    riskLevel := a.riskLevel
    description := a.description
    pointDeduction := a.pointDeduction }

/-- Result of calculateAdditivesImpact. -/
structure AdditivesResult where
  score : ℚ
  additives : List AdditiveInfo
deriving DecidableEq, Repr

/-- calculateAdditivesImpact: a missing (falsy) ingredients field yields
    a perfect score with no additives; otherwise 100 minus the sum of the
    detected point deductions, clamped below at 0. -/
def calculateAdditivesImpact (table : List AdditiveDef) (n : NutritionData) :
    AdditivesResult :=
  match n.ingredients with
  | none => ⟨100, []⟩
  | some ing =>
    let ex := extractAdditives table ing
    ⟨max 0 (100 - (ex.map (fun a => (a.pointDeduction : ℚ))).sum),
     ex.map extractedToInfo⟩

/-- calculateOrganicBonus: a stub returning 0 for every input. -/
def calculateOrganicBonus (_n : NutritionData) : ℚ := 0

/-- getScoreCategory via SCORE_THRESHOLDS. -/
def getScoreCategory (score : Int) : ScoreCategory :=
  if score ≥ THRESHOLD_EXCELLENT then .excellent
  else if score ≥ THRESHOLD_GOOD then .good
  else if score ≥ THRESHOLD_FAIR then .fair
  else .poor

/-- getScoreColor: the fixed category-to-color switch. -/
def getScoreColor (category : ScoreCategory) : ScoreColor :=
  match category with
  | .excellent => .green
  | .good => .lightGreen
  | .fair => .orange
  | .poor => .red

/-- generateImprovements: the three independent suggestion rules. -/
def generateImprovements (nutritionalQuality : ℚ) (additivesData : AdditivesResult)
    (organicBonus : ℚ) : List Str :=
  (if nutritionalQuality < 60 then
    [("Look for products with lower sugar, sodium, and saturated fat").toList,
     ("Choose products with higher fiber and protein content").toList]
   else []) ++
  (if additivesData.score < 80 then
    (let highRisk := additivesData.additives.filter
      (fun a => a.riskLevel = ("red").toList || a.riskLevel = ("orange").toList)
     (if highRisk ≠ [] then
        [("Avoid products with ").toList ++ joinComma (highRisk.map (fun a => a.name))]
      else []) ++
     [("Choose products with fewer artificial additives and preservatives").toList])
   else []) ++
  (if organicBonus = 0 then
    [("Consider organic alternatives when available").toList]
   else [])

/-- calculateScore: weighted composition of the three sub-scores, category
    and color assignment, and improvement generation. -/
def calculateScore (table : List AdditiveDef) (n : NutritionData) : NutritionScoring :=
  let nutritionalQuality := calculateNutritionalQuality n
  let additivesData := calculateAdditivesImpact table n
  let organicBonus := calculateOrganicBonus n
  let finalScore := jsRound
    (nutritionalQuality * WEIGHT_NUTRITIONAL_QUALITY
      + additivesData.score * WEIGHT_ADDITIVES_IMPACT
      + organicBonus * WEIGHT_ORGANIC_BONUS)
  let category := getScoreCategory finalScore
  { finalScore := finalScore
    category := category
    color := getScoreColor category
    breakdown :=
      { nutritionalQuality := nutritionalQuality
        additivesImpact := additivesData.score
        organicBonus := organicBonus }
    additives := additivesData.additives
    improvements := generateImprovements nutritionalQuality additivesData organicBonus }

/-- The sentinel result substituted for a failed item in the batch. -/
def defaultPoorScore : NutritionScoring :=
  { finalScore := 0
    category := .poor
    color := .red
    breakdown := { nutritionalQuality := 0, additivesImpact := 0, organicBonus := 0 }
    additives := []
    improvements := [("Unable to calculate nutrition score").toList] }

/-- batchCalculateScores: Promise.allSettled over the per-item scoring
    calls, then a map replacing each rejected slot with the sentinel.
    The per-item scorer is passed as a fallible function so that the
    failure-isolation contract is stated over every possible failure
    pattern. -/
def batchCalculateScores {ε : Type} (score : NutritionData → Except ε NutritionScoring)
    (nutritionDataList : List NutritionData) : List NutritionScoring :=
  nutritionDataList.map (fun n =>
    match score n with
    | .ok s => s
    | .error _ => defaultPoorScore)

/-- additivesSeedData: the reference rows seeded into the additive table,
    in insertion order (database/seeds, seedAdditives). -/
def additivesSeedData : List AdditiveDef :=
  [⟨some ("E300").toList, ("Ascorbic acid (Vitamin C)").toList, ("green").toList,
    ("Natural antioxidant, vitamin C").toList, 0⟩,
   ⟨some ("E301").toList, ("Sodium ascorbate").toList, ("green").toList,
    ("Sodium salt of vitamin C, antioxidant").toList, 0⟩,
   ⟨some ("E306").toList, ("Tocopherols (Vitamin E)").toList, ("green").toList,
    ("Natural antioxidant, vitamin E").toList, 0⟩,
   ⟨some ("E330").toList, ("Citric acid").toList, ("green").toList,
    ("Natural acid found in citrus fruits").toList, 0⟩,
   ⟨some ("E440").toList, ("Pectin").toList, ("green").toList,
    ("Natural fiber found in fruits").toList, 0⟩,
   ⟨some ("E415").toList, ("Xanthan gum").toList, ("green").toList,
    ("Natural thickener produced by fermentation").toList, 0⟩,
   ⟨some ("E410").toList, ("Locust bean gum").toList, ("green").toList,
    ("Natural thickener from carob seeds").toList, 0⟩,
   ⟨some ("E322").toList, ("Lecithin").toList, ("yellow").toList,
    ("Emulsifier, usually from soy or sunflower").toList, 5⟩,
   ⟨some ("E202").toList, ("Potassium sorbate").toList, ("yellow").toList,
    ("Preservative, antimicrobial agent").toList, 5⟩,
   ⟨some ("E211").toList, ("Sodium benzoate").toList, ("yellow").toList,
    ("Preservative, antimicrobial agent").toList, 5⟩,
   ⟨some ("E407").toList, ("Carrageenan").toList, ("yellow").toList,
    ("Thickener extracted from seaweed").toList, 5⟩,
   ⟨some ("E412").toList, ("Guar gum").toList, ("yellow").toList,
    ("Natural thickener from guar beans").toList, 5⟩,
   ⟨some ("E414").toList, ("Acacia gum (Gum arabic)").toList, ("yellow").toList,
    ("Natural thickener from acacia trees").toList, 5⟩,
   ⟨some ("E249").toList, ("Potassium nitrite").toList, ("orange").toList,
    ("Preservative used in processed meats").toList, 10⟩,
   ⟨some ("E250").toList, ("Sodium nitrite").toList, ("orange").toList,
    ("Preservative used in processed meats").toList, 10⟩,
   ⟨some ("E621").toList, ("Monosodium glutamate (MSG)").toList, ("orange").toList,
    ("Flavor enhancer").toList, 10⟩,
   ⟨some ("E150d").toList, ("Caramel IV (ammonia sulfite)").toList, ("orange").toList,
    ("Artificial coloring agent").toList, 10⟩,
   ⟨some ("E319").toList, ("TBHQ (tert-Butylhydroquinone)").toList, ("orange").toList,
    ("Synthetic antioxidant").toList, 10⟩,
   ⟨some ("E320").toList, ("BHA (Butylated hydroxyanisole)").toList, ("orange").toList,
    ("Synthetic antioxidant").toList, 10⟩,
   ⟨some ("E321").toList, ("BHT (Butylated hydroxytoluene)").toList, ("orange").toList,
    ("Synthetic antioxidant").toList, 10⟩,
   ⟨some ("E102").toList, ("Tartrazine (Yellow 5)").toList, ("red").toList,
    ("Artificial yellow coloring").toList, 20⟩,
   ⟨some ("E110").toList, ("Sunset Yellow (Yellow 6)").toList, ("red").toList,
    ("Artificial orange/yellow coloring").toList, 20⟩,
   ⟨some ("E129").toList, ("Allura Red (Red 40)").toList, ("red").toList,
    ("Artificial red coloring").toList, 20⟩,
   ⟨some ("E133").toList, ("Brilliant Blue (Blue 1)").toList, ("red").toList,
    ("Artificial blue coloring").toList, 20⟩,
   ⟨some ("E951").toList, ("Aspartame").toList, ("red").toList,
    ("Artificial sweetener").toList, 20⟩,
   ⟨some ("E954").toList, ("Saccharin").toList, ("red").toList,
    ("Artificial sweetener").toList, 20⟩,
   ⟨some ("E952").toList, ("Cyclamate").toList, ("red").toList,
    ("Artificial sweetener").toList, 20⟩,
   ⟨none, ("High fructose corn syrup").toList, ("red").toList,
    ("Processed sweetener from corn").toList, 20⟩,
   ⟨none, ("Partially hydrogenated oils").toList, ("red").toList,
    ("Trans fats").toList, 20⟩,
   ⟨none, ("Artificial flavor").toList, ("orange").toList,
    ("Generic artificial flavoring").toList, 10⟩,
   ⟨none, ("Natural flavor").toList, ("yellow").toList,
    ("Natural flavoring compounds").toList, 5⟩,
   ⟨none, ("Sodium phosphates").toList, ("orange").toList,
    ("Preservative and emulsifier").toList, 10⟩,
   ⟨some ("E338").toList, ("Phosphoric acid").toList, ("orange").toList,
    ("Acidifier, common in sodas").toList, 10⟩,
   ⟨some ("E200").toList, ("Sorbic acid").toList, ("yellow").toList,
    ("Natural antimicrobial preservative").toList, 5⟩,
   ⟨some ("E203").toList, ("Calcium sorbate").toList, ("yellow").toList,
    ("Calcium salt of sorbic acid").toList, 5⟩,
   ⟨some ("E210").toList, ("Benzoic acid").toList, ("yellow").toList,
    ("Natural preservative").toList, 5⟩,
   ⟨some ("E100").toList, ("Curcumin").toList, ("green").toList,
    ("Natural yellow coloring from turmeric").toList, 0⟩,
   ⟨some ("E160a").toList, ("Beta-carotene").toList, ("green").toList,
    ("Natural orange coloring, vitamin A precursor").toList, 0⟩,
   ⟨some ("E163").toList, ("Anthocyanins").toList, ("green").toList,
    ("Natural purple/red coloring from fruits").toList, 0⟩]

/-
  Helper definitions and lemmas.
-/

/-- The per-nutrient contribution under the reference reading of the
    spec: a present value is always normalized and run through the
    banded table, an absent one contributes nothing. -/
def bandContrib (v : Option ℚ) (ss : Option Str) (f : ℚ → ℚ) : ℚ :=
  match v with
  | none => 0
  | some x => f (normalizeToPerPor100g x ss)

/-- Reference definition of the nutritional quality sub-score, following
    the banded description in the spec: start at 100, subtract the four
    penalties and add the two bonuses for every present nutrient, clamp
    to [0, 100]. -/
def nutritionalQualityRef (n : NutritionData) : ℚ :=
  max 0 (min 100
    (100
      - bandContrib n.calories n.servingSize caloriesPenalty
      - bandContrib n.saturatedFat n.servingSize satFatPenalty
      - bandContrib n.sugars n.servingSize sugarsPenalty
      - bandContrib n.sodium n.servingSize sodiumPenalty
      + bandContrib n.dietaryFiber n.servingSize fiberBonus
      + bandContrib n.protein n.servingSize proteinBonus))

lemma normalize_zero (ss : Option Str) : normalizeToPerPor100g 0 ss = 0 := by
  unfold normalizeToPerPor100g
  cases ss with
  | none => rfl
  | some s =>
    by_cases h : s = []
    · simp [h]
    · simp only [h, if_false]
      cases hg : findGramMatch s <;> simp

lemma truthyContrib_eq_band (v : Option ℚ) (ss : Option Str) (f : ℚ → ℚ)
    (hf : f 0 = 0) : truthyContrib v ss f = bandContrib v ss f := by
  cases v with
  | none => rfl
  | some x =>
    by_cases hx : x = 0
    · subst hx
      simp [truthyContrib, bandContrib, numPresent, normalize_zero, hf]
    · simp [truthyContrib, bandContrib, numPresent, hx]

lemma getScoreCategory_spec (f : Int) :
    (getScoreCategory f = .excellent ↔ 80 ≤ f)
    ∧ (getScoreCategory f = .good ↔ 60 ≤ f ∧ f < 80)
    ∧ (getScoreCategory f = .fair ↔ 40 ≤ f ∧ f < 60)
    ∧ (getScoreCategory f = .poor ↔ f < 40) := by
  unfold getScoreCategory THRESHOLD_EXCELLENT THRESHOLD_GOOD THRESHOLD_FAIR
  split_ifs with h1 h2 h3 <;> refine ⟨?_, ?_, ?_, ?_⟩ <;> simp_all <;> omega

lemma quality_nonneg (n : NutritionData) : 0 ≤ calculateNutritionalQuality n :=
  le_max_left 0 _

lemma quality_le_100 (n : NutritionData) : calculateNutritionalQuality n ≤ 100 :=
  max_le (by norm_num) (min_le_left 100 _)

lemma foldl_patternStep_eq (table : List AdditiveDef) (toks : List Str)
    (init : List ExtractedAdditive) :
    toks.foldl (patternStep table) init
      = init ++ toks.filterMap
          (fun tok => (findFirstByENumber table (toUpperCL tok)).map defToExtracted) := by
  induction toks generalizing init with
  | nil => simp
  | cons t ts ih =>
    rw [List.foldl_cons, ih]
    cases h : findFirstByENumber table (toUpperCL t) with
    | none => simp [patternStep, h]
    | some a => simp [patternStep, h]

lemma nameStep_cases (table : List AdditiveDef) (text : Str)
    (acc : List ExtractedAdditive) (nm : Str) :
    nameStep table text acc nm = acc
    ∨ ∃ a, findFirstByNameContains table nm = some a
        ∧ (∀ x ∈ acc, ¬ x.name = a.name)
        ∧ nameStep table text acc nm = acc ++ [defToExtracted a] := by
  by_cases h1 : charsContain (toLowerCL text) (toLowerCL nm)
  · cases h2 : findFirstByNameContains table nm with
    | none => left; simp [nameStep, h1, h2]
    | some a =>
      by_cases h3 : acc.any (fun x => x.name = a.name)
      · left; simp [nameStep, h1, h2, h3]
      · right
        refine ⟨a, rfl, ?_, by simp [nameStep, h1, h2, h3]⟩
        intro x hx hname
        exact h3 (List.any_eq_true.mpr ⟨x, hx, by simp [hname]⟩)
  · left; simp [nameStep, h1]

lemma foldl_nameStep_decomp (table : List AdditiveDef) (text : Str)
    (names : List Str) (init : List ExtractedAdditive) :
    ∃ N, names.foldl (nameStep table text) init = init ++ N
      ∧ List.Pairwise (fun a b => ¬ a.name = b.name) N
      ∧ (∀ x ∈ N, ∀ y ∈ init, ¬ x.name = y.name)
      ∧ (∀ x ∈ N, ∃ a ∈ table, x = defToExtracted a) := by
  induction names generalizing init with
  | nil => exact ⟨[], by simp, by simp, by simp, by simp⟩
  | cons nm rest ih =>
    rw [List.foldl_cons]
    rcases nameStep_cases table text init nm with h | ⟨a, hfind, hnew, h⟩
    · rw [h]; exact ih init
    · rw [h]
      obtain ⟨N, hN, hpw, hdisj, htab⟩ := ih (init ++ [defToExtracted a])
      refine ⟨defToExtracted a :: N, by simpa using hN, ?_, ?_, ?_⟩
      · refine List.pairwise_cons.mpr ⟨?_, hpw⟩
        intro b hb heq
        exact hdisj b hb (defToExtracted a) (by simp) heq.symm
      · intro x hx y hy
        rcases List.mem_cons.mp hx with rfl | hx2
        · intro heq
          exact hnew y hy ((show (defToExtracted a).name = a.name from rfl) ▸ heq).symm
        · exact hdisj x hx2 y (List.mem_append_left _ hy)
      · intro x hx
        rcases List.mem_cons.mp hx with rfl | hx2
        · exact ⟨a, List.mem_of_find?_eq_some hfind, rfl⟩
        · exact htab x hx2

lemma foldl_eq_namePassRef (table : List AdditiveDef) (text : Str) :
    ∀ (names : List Str) (acc : List ExtractedAdditive),
      names.foldl (nameStep table text) acc = acc ++ namePassRef table text names acc := by
  intro names
  induction names with
  | nil => intro acc; simp [namePassRef]
  | cons nm rest ih =>
    intro acc
    rw [List.foldl_cons]
    by_cases h1 : charsContain (toLowerCL text) (toLowerCL nm)
    · cases h2 : findFirstByNameContains table nm with
      | none =>
        rw [show nameStep table text acc nm = acc by simp [nameStep, h1, h2]]
        rw [ih]
        simp [namePassRef, h1, h2]
      | some a =>
        by_cases h3 : acc.any (fun x => x.name = a.name)
        · rw [show nameStep table text acc nm = acc by simp [nameStep, h1, h2, h3]]
          rw [ih]
          simp [namePassRef, h1, h2, h3]
        · rw [show nameStep table text acc nm = acc ++ [defToExtracted a] by
            simp [nameStep, h1, h2, h3]]
          rw [ih]
          simp [namePassRef, h1, h2, h3]
    · rw [show nameStep table text acc nm = acc by simp [nameStep, h1]]
      rw [ih]
      simp [namePassRef, h1]

lemma extractAdditives_eq_ref (table : List AdditiveDef) (ing : List Str) :
    extractAdditives table ing
      = patternPassRef table (joinComma ing)
        ++ namePassRef table (joinComma ing) commonAdditives
            (patternPassRef table (joinComma ing)) := by
  show commonAdditives.foldl (nameStep table (joinComma ing))
      ((eNumberMatches (joinComma ing)).foldl (patternStep table) []) = _
  rw [foldl_eq_namePassRef, foldl_patternStep_eq, List.nil_append]
  rfl

lemma extractAdditives_eq_decomp (table : List AdditiveDef) (ing : List Str) :
    ∃ N, extractAdditives table ing = patternPassRef table (joinComma ing) ++ N
      ∧ List.Pairwise (fun a b => ¬ a.name = b.name) N
      ∧ (∀ x ∈ N, ∀ y ∈ patternPassRef table (joinComma ing), ¬ x.name = y.name)
      ∧ (∀ x ∈ N, ∃ a ∈ table, x = defToExtracted a) := by
  obtain ⟨N, hN, hpw, hdisj, htab⟩ :=
    foldl_nameStep_decomp table (joinComma ing) commonAdditives
      ((eNumberMatches (joinComma ing)).foldl (patternStep table) [])
  refine ⟨N, ?_, hpw, ?_, htab⟩
  · show commonAdditives.foldl (nameStep table (joinComma ing))
        ((eNumberMatches (joinComma ing)).foldl (patternStep table) []) = _
    rw [hN, foldl_patternStep_eq]
    simp [patternPassRef]
  · intro x hx y hy
    refine hdisj x hx y ?_
    rw [foldl_patternStep_eq]
    simpa [patternPassRef] using hy

/-- The name-pass additions coincide with the existentially decomposed
    tail of the extractor output, so they inherit its distinctness
    properties. -/
lemma namePassRef_eq_decomp_tail (table : List AdditiveDef) (ing : List Str) :
    List.Pairwise (fun a b => ¬ a.name = b.name)
      (namePassRef table (joinComma ing) commonAdditives
        (patternPassRef table (joinComma ing)))
    ∧ (∀ x ∈ namePassRef table (joinComma ing) commonAdditives
          (patternPassRef table (joinComma ing)),
        ∀ y ∈ patternPassRef table (joinComma ing), ¬ x.name = y.name)
    ∧ (∀ x ∈ namePassRef table (joinComma ing) commonAdditives
          (patternPassRef table (joinComma ing)),
        ∃ a ∈ table, x = defToExtracted a) := by
  obtain ⟨N, hN, hpw, hdisj, htab⟩ := extractAdditives_eq_decomp table ing
  have heq : patternPassRef table (joinComma ing)
        ++ namePassRef table (joinComma ing) commonAdditives
            (patternPassRef table (joinComma ing))
      = patternPassRef table (joinComma ing) ++ N :=
    (extractAdditives_eq_ref table ing).symm.trans hN
  have hNeq : namePassRef table (joinComma ing) commonAdditives
      (patternPassRef table (joinComma ing)) = N :=
    List.append_cancel_left heq
  rw [hNeq]
  exact ⟨hpw, hdisj, htab⟩

lemma extractAdditives_mem (table : List AdditiveDef) (ing : List Str) :
    ∀ x ∈ extractAdditives table ing, ∃ a ∈ table, x = defToExtracted a := by
  intro x hx
  obtain ⟨N, hN, _, _, htab⟩ := extractAdditives_eq_decomp table ing
  rw [hN] at hx
  rcases List.mem_append.mp hx with h | h
  · simp only [patternPassRef] at h
    obtain ⟨tok, _, hfind⟩ := List.mem_filterMap.mp h
    cases hf : findFirstByENumber table (toUpperCL tok) with
    | none => rw [hf] at hfind; simp at hfind
    | some a =>
      rw [hf] at hfind
      simp at hfind
      exact ⟨a, List.mem_of_find?_eq_some hf, hfind.symm⟩
  · exact htab x h

lemma extract_deductions_nonneg (table : List AdditiveDef) (ing : List Str)
    (h : ∀ a ∈ table, 0 ≤ a.pointDeduction) :
    0 ≤ ((extractAdditives table ing).map (fun a => (a.pointDeduction : ℚ))).sum := by
  apply List.sum_nonneg
  intro q hq
  obtain ⟨x, hx, rfl⟩ := List.mem_map.mp hq
  obtain ⟨a, ha, rfl⟩ := extractAdditives_mem table ing x hx
  exact_mod_cast h a ha

lemma additivesImpact_nonneg (table : List AdditiveDef) (n : NutritionData) :
    0 ≤ (calculateAdditivesImpact table n).score := by
  cases hi : n.ingredients with
  | none => simp [calculateAdditivesImpact, hi]
  | some ing =>
    simp only [calculateAdditivesImpact, hi]
    exact le_max_left 0 _

lemma additivesImpact_le_100 (table : List AdditiveDef) (n : NutritionData)
    (h : ∀ a ∈ table, 0 ≤ a.pointDeduction) :
    (calculateAdditivesImpact table n).score ≤ 100 := by
  cases hi : n.ingredients with
  | none => simp [calculateAdditivesImpact, hi]
  | some ing =>
    simp only [calculateAdditivesImpact, hi]
    refine max_le (by norm_num) ?_
    have := extract_deductions_nonneg table ing h
    linarith

lemma jsRound_nonneg {x : ℚ} (h : 0 ≤ x) : 0 ≤ jsRound x := by
  unfold jsRound
  exact Int.le_floor.mpr (by push_cast; linarith)

lemma jsRound_le {x : ℚ} {z : Int} (h : x + 1 / 2 < z + 1) : jsRound x ≤ z := by
  unfold jsRound
  have : ⌊x + 1 / 2⌋ < z + 1 := Int.floor_lt.mpr (by push_cast; linarith)
  omega

/-
  Concrete inputs used by witnesses and counterexamples.
-/

/-- A NutritionData value with every field absent. -/
def allAbsentFacts : NutritionData :=
  ⟨none, none, none, none, none, none, none, none⟩

/-- The concrete scenario of the spec: sodium 1200, serving size 50g,
    ingredients water, E102, E621, natural flavor. -/
def c9Facts : NutritionData :=
  ⟨some (("50g").toList), none, none, none, some 1200, none, none,
   some [("water").toList, ("E102").toList, ("E621").toList,
         ("natural flavor").toList]⟩

/-
  Claim theorems.
-/

/-- C1: for every input, the final score is the rounded weighted sum of
    the three sub-scores in the returned breakdown, the category is
    excellent iff the final score is at least 80, good iff it is in
    [60, 80), fair iff in [40, 60), poor iff below 40, and the color is
    the fixed one-to-one image of the category (excellent to green, good
    to light-green, fair to orange, poor to red). -/
theorem finalScore_category_color_spec (table : List AdditiveDef) (n : NutritionData) :
    (calculateScore table n).finalScore
      = jsRound ((calculateScore table n).breakdown.nutritionalQuality * WEIGHT_NUTRITIONAL_QUALITY
          + (calculateScore table n).breakdown.additivesImpact * WEIGHT_ADDITIVES_IMPACT
          + (calculateScore table n).breakdown.organicBonus * WEIGHT_ORGANIC_BONUS)
    ∧ ((calculateScore table n).category = .excellent ↔ 80 ≤ (calculateScore table n).finalScore)
    ∧ ((calculateScore table n).category = .good
        ↔ 60 ≤ (calculateScore table n).finalScore ∧ (calculateScore table n).finalScore < 80)
    ∧ ((calculateScore table n).category = .fair
        ↔ 40 ≤ (calculateScore table n).finalScore ∧ (calculateScore table n).finalScore < 60)
    ∧ ((calculateScore table n).category = .poor ↔ (calculateScore table n).finalScore < 40)
    ∧ ((calculateScore table n).category = .excellent → (calculateScore table n).color = .green)
    ∧ ((calculateScore table n).category = .good → (calculateScore table n).color = .lightGreen)
    ∧ ((calculateScore table n).category = .fair → (calculateScore table n).color = .orange)
    ∧ ((calculateScore table n).category = .poor → (calculateScore table n).color = .red)
    ∧ (∀ c1 c2 : ScoreCategory, getScoreColor c1 = getScoreColor c2 → c1 = c2) := by
  have hcat := getScoreCategory_spec (calculateScore table n).finalScore
  have hcol : (calculateScore table n).color
      = getScoreColor (calculateScore table n).category := rfl
  refine ⟨rfl, hcat.1, hcat.2.1, hcat.2.2.1, hcat.2.2.2, ?_, ?_, ?_, ?_, ?_⟩
  · intro h; rw [hcol, h]; rfl
  · intro h; rw [hcol, h]; rfl
  · intro h; rw [hcol, h]; rfl
  · intro h; rw [hcol, h]; rfl
  · intro c1 c2 h
    cases c1 <;> cases c2 <;> simp [getScoreColor] at h ⊢

/-- C2: under the precondition that every point deduction in the
    reference table is non-negative, the three sub-scores in the
    breakdown and the final score all lie in [0, 100]. -/
theorem scores_clamped (table : List AdditiveDef) (n : NutritionData)
    (h : ∀ a ∈ table, 0 ≤ a.pointDeduction) :
    0 ≤ (calculateScore table n).breakdown.nutritionalQuality
    ∧ (calculateScore table n).breakdown.nutritionalQuality ≤ 100
    ∧ 0 ≤ (calculateScore table n).breakdown.additivesImpact
    ∧ (calculateScore table n).breakdown.additivesImpact ≤ 100
    ∧ 0 ≤ (calculateScore table n).breakdown.organicBonus
    ∧ (calculateScore table n).breakdown.organicBonus ≤ 100
    ∧ 0 ≤ (calculateScore table n).finalScore
    ∧ (calculateScore table n).finalScore ≤ 100 := by
  have hq1 := quality_nonneg n
  have hq2 := quality_le_100 n
  have ha1 := additivesImpact_nonneg table n
  have ha2 := additivesImpact_le_100 table n h
  refine ⟨hq1, hq2, ha1, ha2, le_refl 0, by show (0 : ℚ) ≤ 100; norm_num, ?_, ?_⟩
  · show 0 ≤ jsRound (calculateNutritionalQuality n * WEIGHT_NUTRITIONAL_QUALITY
      + (calculateAdditivesImpact table n).score * WEIGHT_ADDITIVES_IMPACT
      + calculateOrganicBonus n * WEIGHT_ORGANIC_BONUS)
    apply jsRound_nonneg
    unfold WEIGHT_NUTRITIONAL_QUALITY WEIGHT_ADDITIVES_IMPACT WEIGHT_ORGANIC_BONUS
      calculateOrganicBonus
    nlinarith
  · show jsRound (calculateNutritionalQuality n * WEIGHT_NUTRITIONAL_QUALITY
      + (calculateAdditivesImpact table n).score * WEIGHT_ADDITIVES_IMPACT
      + calculateOrganicBonus n * WEIGHT_ORGANIC_BONUS) ≤ 100
    apply jsRound_le
    unfold WEIGHT_NUTRITIONAL_QUALITY WEIGHT_ADDITIVES_IMPACT WEIGHT_ORGANIC_BONUS
      calculateOrganicBonus
    push_cast
    nlinarith

/-- C2 witness: the clamping bounds at the seeded table and the concrete
    scenario facts; the non-negativity precondition holds for the seeded
    table by computation. -/
theorem scores_clamped_witness :
    0 ≤ (calculateScore additivesSeedData c9Facts).breakdown.nutritionalQuality
    ∧ (calculateScore additivesSeedData c9Facts).breakdown.nutritionalQuality ≤ 100
    ∧ 0 ≤ (calculateScore additivesSeedData c9Facts).breakdown.additivesImpact
    ∧ (calculateScore additivesSeedData c9Facts).breakdown.additivesImpact ≤ 100
    ∧ 0 ≤ (calculateScore additivesSeedData c9Facts).breakdown.organicBonus
    ∧ (calculateScore additivesSeedData c9Facts).breakdown.organicBonus ≤ 100
    ∧ 0 ≤ (calculateScore additivesSeedData c9Facts).finalScore
    ∧ (calculateScore additivesSeedData c9Facts).finalScore ≤ 100 :=
  scores_clamped additivesSeedData c9Facts (by decide)

/-- C3: the nutritional quality sub-score equals the banded reference
    definition (absent nutrients contribute nothing, present ones are
    normalized and run through their five-tier table, and the result is
    clamped), and an input with all nutrient fields absent scores 100. -/
theorem quality_eq_banded_reference (n : NutritionData) :
    calculateNutritionalQuality n = nutritionalQualityRef n
    ∧ (n.calories = none → n.saturatedFat = none → n.sugars = none →
       n.sodium = none → n.dietaryFiber = none → n.protein = none →
       calculateNutritionalQuality n = 100) := by
  have heq : calculateNutritionalQuality n = nutritionalQualityRef n := by
    unfold calculateNutritionalQuality nutritionalQualityRef
    rw [truthyContrib_eq_band _ _ _ (by norm_num [caloriesPenalty]),
        truthyContrib_eq_band _ _ _ (by norm_num [satFatPenalty]),
        truthyContrib_eq_band _ _ _ (by norm_num [sugarsPenalty]),
        truthyContrib_eq_band _ _ _ (by norm_num [sodiumPenalty]),
        truthyContrib_eq_band _ _ _ (by norm_num [fiberBonus]),
        truthyContrib_eq_band _ _ _ (by norm_num [proteinBonus])]
  refine ⟨heq, ?_⟩
  intro h1 h2 h3 h4 h5 h6
  rw [heq]
  unfold nutritionalQualityRef
  rw [h1, h2, h3, h4, h5, h6]
  norm_num [bandContrib]

/-- C3 witness: the all-absent input evaluates to quality 100 through the
    second part of the theorem. -/
theorem quality_eq_banded_reference_witness :
    calculateNutritionalQuality allAbsentFacts = 100 :=
  (quality_eq_banded_reference allAbsentFacts).2 rfl rfl rfl rfl rfl rfl

/-- C4 counterexample: with the serving size absent, the code returns the
    value unchanged (here 30), while the claimed 30g fallback would give
    30 * 100 / 30 = 100. -/
theorem normalization_absent_counterexample :
    normalizeToPerPor100g 30 none = 30
    ∧ (30 : ℚ) * 100 / 30 = 100
    ∧ normalizeToPerPor100g 30 none ≠ 30 * 100 / 30 := by
  refine ⟨rfl, by norm_num, by norm_num [normalizeToPerPor100g]⟩

/-- C4 amended: a parseable gram quantity g scales by value * 100 / g; a
    present, non-empty but unparseable serving size uses the 30g
    fallback; an absent or empty serving size returns the value
    unchanged (no fallback scaling). -/
theorem normalization_amended (value : ℚ) (ss : Option Str) :
    (ss = none → normalizeToPerPor100g value ss = value)
    ∧ (∀ s, ss = some s → s = [] → normalizeToPerPor100g value ss = value)
    ∧ (∀ s g, ss = some s → findGramMatch s = some g →
        normalizeToPerPor100g value ss = value * 100 / g)
    ∧ (∀ s, ss = some s → s ≠ [] → findGramMatch s = none →
        normalizeToPerPor100g value ss = value * 100 / 30) := by
  refine ⟨?_, ?_, ?_, ?_⟩
  · intro h; rw [h]; rfl
  · intro s hss hempty
    rw [hss]
    simp [normalizeToPerPor100g, hempty]
  · intro s g hss hg
    rw [hss]
    by_cases hempty : s = []
    · rw [hempty] at hg; simp [findGramMatch] at hg
    · simp only [normalizeToPerPor100g, hempty, if_false, hg]
      rw [div_mul_eq_mul_div]
  · intro s hss hempty hg
    rw [hss]
    simp only [normalizeToPerPor100g, hempty, if_false, hg]
    rw [div_mul_eq_mul_div]

/-- C4 witness: serving size 50g scales 7 to 7 * 100 / 50. -/
theorem normalization_amended_witness :
    normalizeToPerPor100g 7 (some (("50g").toList)) = 7 * 100 / 50 :=
  (normalization_amended 7 (some (("50g").toList))).2.2.1
    (("50g").toList) 50 rfl (by decide)

/-- C5: absent ingredients yield score 100 with no additives; otherwise
    the result carries the extracted additives and the score
    100 minus the sum of their point deductions clamped below at 0,
    which never exceeds 100 when the table deductions are
    non-negative. -/
theorem additives_impact_contract (table : List AdditiveDef) (n : NutritionData) :
    (n.ingredients = none →
      calculateAdditivesImpact table n = ⟨100, []⟩)
    ∧ (∀ ing, n.ingredients = some ing →
        (calculateAdditivesImpact table n).additives
            = (extractAdditives table ing).map extractedToInfo
        ∧ (calculateAdditivesImpact table n).score
            = max 0 (100 - ((extractAdditives table ing).map
                (fun a => (a.pointDeduction : ℚ))).sum)
        ∧ ((∀ a ∈ table, 0 ≤ a.pointDeduction) →
            (calculateAdditivesImpact table n).score ≤ 100)) := by
  refine ⟨?_, ?_⟩
  · intro h
    simp [calculateAdditivesImpact, h]
  · intro ing hing
    refine ⟨by simp [calculateAdditivesImpact, hing], by simp [calculateAdditivesImpact, hing], ?_⟩
    intro h
    exact additivesImpact_le_100 table n h

/-- C5 witness: the empty-ingredients branch at the seeded table, and the
    non-empty branch at the concrete scenario facts. -/
theorem additives_impact_contract_witness :
    calculateAdditivesImpact additivesSeedData allAbsentFacts = ⟨100, []⟩
    ∧ (calculateAdditivesImpact additivesSeedData c9Facts).score ≤ 100 :=
  ⟨(additives_impact_contract additivesSeedData allAbsentFacts).1 rfl,
   ((additives_impact_contract additivesSeedData c9Facts).2
      [("water").toList, ("E102").toList, ("E621").toList, ("natural flavor").toList]
      rfl).2.2 (by decide)⟩

/-- C6 counterexample: the ingredient text containing the E-number E330
    twice yields two identical Citric acid entries; the pattern pass does
    not suppress repeated occurrences of the same resolved additive. -/
theorem extractor_pattern_duplicate_counterexample :
    (extractAdditives additivesSeedData [("E330, E330").toList]).map (fun a => a.name)
      = [("Citric acid").toList, ("Citric acid").toList]
    ∧ (extractAdditives additivesSeedData [("E330, E330").toList]).length = 2 := by
  refine ⟨by decide, by decide⟩

/-- C6 amended: the extractor output is exactly the pattern-pass
    resolutions in order of appearance and without de-duplication
    (patternPassRef), followed by exactly the name-pass additions
    computed over the curated names in list-definition order, where an
    addition is suppressed precisely when an already collected entry
    (from the pattern pass or an earlier name-pass addition) has the
    same resolved display name (namePassRef); consequently the name-pass
    additions are pairwise distinct by resolved name and distinct from
    every pattern-pass entry, and a text containing both E330 and citric
    acid yields exactly one Citric acid entry. -/
theorem extractor_order_dedup_amended (table : List AdditiveDef) (ing : List Str) :
    extractAdditives table ing
        = patternPassRef table (joinComma ing)
          ++ namePassRef table (joinComma ing) commonAdditives
              (patternPassRef table (joinComma ing))
    ∧ List.Pairwise (fun a b => ¬ a.name = b.name)
        (namePassRef table (joinComma ing) commonAdditives
          (patternPassRef table (joinComma ing)))
    ∧ (∀ x ∈ namePassRef table (joinComma ing) commonAdditives
          (patternPassRef table (joinComma ing)),
        ∀ y ∈ patternPassRef table (joinComma ing), ¬ x.name = y.name)
    ∧ (extractAdditives additivesSeedData [("water, E330, citric acid").toList]).map
        (fun a => a.name) = [("Citric acid").toList] := by
  obtain ⟨hpw, hdisj, _⟩ := namePassRef_eq_decomp_tail table ing
  exact ⟨extractAdditives_eq_ref table ing, hpw, hdisj, by decide⟩

/-- C7: the pattern pass does recognize mixed-case E-number tokens
    (E150d is matched and e322 resolves), but the resolution of a
    recognized token is an exact, case-sensitive equality lookup on the
    upper-cased token, so the seeded E150d row — whose stored code
    differs from the upper-cased token E150D only in letter case — is
    never found and the extractor returns nothing for it.  This
    contradicts the claimed case-insensitive identifier resolution and
    makes the seeded E150d row unreachable. -/
theorem e150d_unreachable_lookup_bug :
    eNumberMatches (("E150d").toList) = [("E150d").toList]
    ∧ toUpperCL (("E150d").toList) = ("E150D").toList
    ∧ (∃ a ∈ additivesSeedData, a.eNumber = some (("E150d").toList))
    ∧ findFirstByENumber additivesSeedData (toUpperCL (("E150d").toList)) = none
    ∧ extractAdditives additivesSeedData [("E150d").toList] = []
    ∧ extractAdditives additivesSeedData [("e322").toList]
        = [⟨some (("E322").toList), ("Lecithin").toList, ("yellow").toList,
            ("Emulsifier, usually from soy or sunflower").toList, 5⟩] := by
  refine ⟨by decide, by decide, by decide, by decide, by decide, by decide⟩

/-- C8: the batch result has the same length as the input, slot i is
    exactly the scoring of input i when it succeeds and the sentinel
    worst-case result when it fails, and the sentinel carries final score
    0, category poor, color red, an all-zero breakdown, no additives and
    the explanatory improvement string. -/
theorem batch_isolation_spec {ε : Type}
    (score : NutritionData → Except ε NutritionScoring)
    (l : List NutritionData) :
    (batchCalculateScores score l).length = l.length
    ∧ (∀ i : Nat, (batchCalculateScores score l)[i]?
        = (l[i]?).map (fun n =>
            match score n with
            | .ok s => s
            | .error _ => defaultPoorScore))
    ∧ defaultPoorScore.finalScore = 0
    ∧ defaultPoorScore.category = .poor
    ∧ defaultPoorScore.color = .red
    ∧ defaultPoorScore.breakdown = ⟨0, 0, 0⟩
    ∧ defaultPoorScore.additives = []
    ∧ defaultPoorScore.improvements = [("Unable to calculate nutrition score").toList] := by
  refine ⟨?_, ?_, rfl, rfl, rfl, rfl, rfl, rfl⟩
  · simp [batchCalculateScores]
  · intro i
    simp [batchCalculateScores]

lemma c9_extract_eq :
    extractAdditives additivesSeedData
        [("water").toList, ("E102").toList, ("E621").toList, ("natural flavor").toList]
      = [⟨some (("E102").toList), ("Tartrazine (Yellow 5)").toList, ("red").toList,
          ("Artificial yellow coloring").toList, 20⟩,
         ⟨some (("E621").toList), ("Monosodium glutamate (MSG)").toList, ("orange").toList,
          ("Flavor enhancer").toList, 10⟩] := by decide

lemma c9_norm_sodium : normalizeToPerPor100g 1200 (some (("50g").toList)) = 2400 := by
  have hg : findGramMatch (("50g").toList) = some 50 := by decide
  have hne : ¬ (("50g").toList = ([] : Str)) := by decide
  simp only [normalizeToPerPor100g, hne, if_false, hg]
  norm_num

lemma c9_quality : calculateNutritionalQuality c9Facts = 90 := by
  show max 0 (min 100
    (100 - truthyContrib none (some (("50g").toList)) caloriesPenalty
         - truthyContrib none (some (("50g").toList)) satFatPenalty
         - truthyContrib none (some (("50g").toList)) sugarsPenalty
         - truthyContrib (some 1200) (some (("50g").toList)) sodiumPenalty
         + truthyContrib none (some (("50g").toList)) fiberBonus
         + truthyContrib none (some (("50g").toList)) proteinBonus)) = 90
  have hnone : ∀ (ss : Option Str) (f : ℚ → ℚ), truthyContrib none ss f = 0 :=
    fun _ _ => rfl
  have hsod : truthyContrib (some 1200) (some (("50g").toList)) sodiumPenalty = 10 := by
    rw [truthyContrib_eq_band _ _ _ (by norm_num [sodiumPenalty])]
    show sodiumPenalty (normalizeToPerPor100g 1200 (some (("50g").toList))) = 10
    rw [c9_norm_sodium]
    norm_num [sodiumPenalty]
  rw [hnone, hnone, hnone, hnone, hnone, hsod]
  norm_num

lemma c9_impact_score : (calculateAdditivesImpact additivesSeedData c9Facts).score = 70 := by
  show max 0 (100 - ((extractAdditives additivesSeedData
      [("water").toList, ("E102").toList, ("E621").toList,
       ("natural flavor").toList]).map (fun a => (a.pointDeduction : ℚ))).sum) = 70
  rw [c9_extract_eq]
  simp only [List.map_cons, List.map_nil, List.sum_cons, List.sum_nil]
  norm_num

lemma c9_impact_additives :
    (calculateAdditivesImpact additivesSeedData c9Facts).additives
      = [⟨("E102").toList, ("Tartrazine (Yellow 5)").toList, ("red").toList,
          ("Artificial yellow coloring").toList, 20⟩,
         ⟨("E621").toList, ("Monosodium glutamate (MSG)").toList, ("orange").toList,
          ("Flavor enhancer").toList, 10⟩] := by
  show (extractAdditives additivesSeedData
      [("water").toList, ("E102").toList, ("E621").toList,
       ("natural flavor").toList]).map extractedToInfo = _
  rw [c9_extract_eq]
  rfl

lemma c9_final : (calculateScore additivesSeedData c9Facts).finalScore = 75 := by
  show jsRound (calculateNutritionalQuality c9Facts * WEIGHT_NUTRITIONAL_QUALITY
      + (calculateAdditivesImpact additivesSeedData c9Facts).score * WEIGHT_ADDITIVES_IMPACT
      + calculateOrganicBonus c9Facts * WEIGHT_ORGANIC_BONUS) = 75
  rw [c9_quality, c9_impact_score]
  show jsRound ((90 : ℚ) * (6 / 10) + 70 * (3 / 10) + 0 * (1 / 10)) = 75
  unfold jsRound
  norm_num [Int.floor_eq_iff]

lemma c9_category : (calculateScore additivesSeedData c9Facts).category = .good := by
  show getScoreCategory (calculateScore additivesSeedData c9Facts).finalScore = .good
  rw [c9_final]
  decide

/-- C9 counterexample: the concrete scenario facts score 75, not the
    claimed 74, because natural flavor is not in the curated name list
    and is therefore not detected, leaving the additives sub-score at 70
    instead of 65. -/
theorem concrete_scenario_counterexample :
    (calculateScore additivesSeedData c9Facts).finalScore = 75
    ∧ (75 : Int) ≠ 74 := by
  refine ⟨c9_final, by decide⟩

/-- C9 amended: for the scenario facts, normalized sodium is 2400 giving
    quality 90; the detected additives are exactly E102 (red, 20 points)
    and E621 (orange, 10 points) — natural flavor is not detected since
    it is absent from the curated name list — giving additives sub-score
    70; the organic bonus is 0; the final score is
    round(90 * 0.6 + 70 * 0.3 + 0 * 0.1) = 75, category good, color
    light-green. -/
theorem concrete_scenario_amended :
    normalizeToPerPor100g 1200 (some (("50g").toList)) = 2400
    ∧ (calculateScore additivesSeedData c9Facts).breakdown.nutritionalQuality = 90
    ∧ (calculateScore additivesSeedData c9Facts).additives.map
        (fun a => (a.code, a.riskLevel, a.pointDeduction))
      = [(("E102").toList, ("red").toList, 20),
         (("E621").toList, ("orange").toList, 10)]
    ∧ (calculateScore additivesSeedData c9Facts).breakdown.additivesImpact = 70
    ∧ (calculateScore additivesSeedData c9Facts).breakdown.organicBonus = 0
    ∧ (calculateScore additivesSeedData c9Facts).finalScore
        = jsRound ((90 : ℚ) * WEIGHT_NUTRITIONAL_QUALITY
            + 70 * WEIGHT_ADDITIVES_IMPACT + 0 * WEIGHT_ORGANIC_BONUS)
    ∧ (calculateScore additivesSeedData c9Facts).finalScore = 75
    ∧ (calculateScore additivesSeedData c9Facts).category = .good
    ∧ (calculateScore additivesSeedData c9Facts).color = .lightGreen := by
  refine ⟨c9_norm_sodium, c9_quality, ?_, c9_impact_score, rfl, ?_, c9_final,
    c9_category, ?_⟩
  · show ((calculateAdditivesImpact additivesSeedData c9Facts).additives).map
        (fun a => (a.code, a.riskLevel, a.pointDeduction)) = _
    rw [c9_impact_additives]
    rfl
  · rw [c9_final]
    symm
    show jsRound ((90 : ℚ) * (6 / 10) + 70 * (3 / 10) + 0 * (1 / 10)) = 75
    unfold jsRound
    norm_num [Int.floor_eq_iff]
  · show getScoreColor (calculateScore additivesSeedData c9Facts).category = _
    rw [c9_category]
    rfl

/-- C10: the organic bonus in the breakdown is 0 for every input (the
    calculator is a constant-zero stub), and consequently, whenever the
    table deductions are non-negative, the final score never exceeds
    90 = round(100 * 0.6 + 100 * 0.3 + 0 * 0.1). -/
theorem organic_stub_caps_final_at_90 (table : List AdditiveDef) (n : NutritionData)
    (h : ∀ a ∈ table, 0 ≤ a.pointDeduction) :
    (calculateScore table n).breakdown.organicBonus = 0
    ∧ jsRound ((100 : ℚ) * WEIGHT_NUTRITIONAL_QUALITY
        + 100 * WEIGHT_ADDITIVES_IMPACT + 0 * WEIGHT_ORGANIC_BONUS) = 90
    ∧ (calculateScore table n).finalScore ≤ 90 := by
  have hq2 := quality_le_100 n
  have ha1 := additivesImpact_nonneg table n
  have ha2 := additivesImpact_le_100 table n h
  have hq1 := quality_nonneg n
  refine ⟨rfl, ?_, ?_⟩
  · unfold jsRound WEIGHT_NUTRITIONAL_QUALITY WEIGHT_ADDITIVES_IMPACT WEIGHT_ORGANIC_BONUS
    norm_num [Int.floor_eq_iff]
  · show jsRound (calculateNutritionalQuality n * WEIGHT_NUTRITIONAL_QUALITY
        + (calculateAdditivesImpact table n).score * WEIGHT_ADDITIVES_IMPACT
        + calculateOrganicBonus n * WEIGHT_ORGANIC_BONUS) ≤ 90
    apply jsRound_le
    unfold WEIGHT_NUTRITIONAL_QUALITY WEIGHT_ADDITIVES_IMPACT WEIGHT_ORGANIC_BONUS
      calculateOrganicBonus
    push_cast
    nlinarith

/-- C10 witness: at the seeded table and the concrete scenario facts the
    organic bonus is 0 and the final score is at most 90. -/
theorem organic_stub_caps_final_at_90_witness :
    (calculateScore additivesSeedData c9Facts).breakdown.organicBonus = 0
    ∧ jsRound ((100 : ℚ) * WEIGHT_NUTRITIONAL_QUALITY
        + 100 * WEIGHT_ADDITIVES_IMPACT + 0 * WEIGHT_ORGANIC_BONUS) = 90
    ∧ (calculateScore additivesSeedData c9Facts).finalScore ≤ 90 :=
  organic_stub_caps_final_at_90 additivesSeedData c9Facts (by decide)

end KareList
